import Mathlib

/-
Verification of the outbound-request governor of the studyIA backend:
the quota monitor (src/utils/quotaMonitor.js) and the Gemini rate
limiter (the `rateLimiter` object of the chat controller).

Dates ("YYYY-MM-DD" strings in the source) are abstracted to natural
day keys compared for equality only; timestamps (ms since epoch) are
integers, as JavaScript arithmetic on Date.now() values is exact
integer arithmetic in the ranges involved.
-/

/-- One entry of the persisted `history` array: `{date, requests, quotaExceeds}`. -/
structure HistoryEntry where
  date : Nat
  requests : Nat
  quotaExceeds : Nat
deriving DecidableEq

/-- The persisted quota state (the JSON object in quota.json), field for field.
`lastUpdate` is an ISO timestamp string in the source; we keep the instant. -/
structure QuotaState where
  requestsToday : Nat
  requestsThisMinute : Nat
  lastMinuteTimestamp : Int
  dailyReset : Nat
  minuteQuota : Nat
  dailyQuota : Nat
  quotaExceededCount : Nat
  lastUpdate : Int
  history : List HistoryEntry
deriving DecidableEq

/-- Daily-rollover block of `trackApiRequest` (quotaMonitor.js lines 102-119),
in the statement order of the source: `dailyReset` and `requestsToday` are
overwritten first, then the history entry is pushed, then the history is
cut to its last 30 entries, then `quotaExceededCount` is cleared. -/
def dailyRollover (q : QuotaState) (today : Nat) : QuotaState :=
  if q.dailyReset ≠ today then
    let q1 := { q with dailyReset := today, requestsToday := 0 }
    let e : HistoryEntry := ⟨q1.dailyReset, q1.requestsToday, q1.quotaExceededCount⟩
    let q2 := { q1 with history := q1.history ++ [e] }
    let q3 :=
      if q2.history.length > 30 then
        { q2 with history := q2.history.drop (q2.history.length - 30) }
      else q2
    { q3 with quotaExceededCount := 0 }
  else q

/-- Minute-window rollover of `trackApiRequest` (lines 121-125). -/
def minuteRollover (q : QuotaState) (now : Int) : QuotaState :=
  if 60000 ≤ now - q.lastMinuteTimestamp then
    { q with lastMinuteTimestamp := now, requestsThisMinute := 0 }
  else q

/-- Return shape of `trackApiRequest` and `checkQuotaAvailable`. -/
structure QuotaReport where
  isQuotaExceeded : Bool
  quotaData : QuotaState
  timeToReset : Int
deriving DecidableEq

/-- `trackApiRequest` (quotaMonitor.js lines 97-150) on an already-loaded
state: daily rollover, minute rollover, unconditional increments of both
counters, exceed check `requestsThisMinute > minuteQuota ||
requestsToday >= dailyQuota`, exceed counter bump, and the report with
`timeToReset = max(0, 60000 - (now - lastMinuteTimestamp))` when exceeded. -/
def trackApiRequest (q0 : QuotaState) (now : Int) (today : Nat) : QuotaReport :=
  let qa := minuteRollover (dailyRollover q0 today) now
  let qb := { qa with
    requestsToday := qa.requestsToday + 1,
    requestsThisMinute := qa.requestsThisMinute + 1,
    lastUpdate := now }
  let exceeded :=
    decide (qb.requestsThisMinute > qb.minuteQuota) ||
    decide (qb.requestsToday ≥ qb.dailyQuota)
  let qc := if exceeded then { qb with quotaExceededCount := qb.quotaExceededCount + 1 } else qb
  { isQuotaExceeded := exceeded
    quotaData := qc
    timeToReset := if exceeded then max 0 (60000 - (now - qc.lastMinuteTimestamp)) else 0 }

/-- `checkQuotaAvailable` (quotaMonitor.js lines 153-175) on an
already-loaded state: early return when the minute window has elapsed,
otherwise the read-only `requestsThisMinute >= minuteQuota` test. -/
def checkQuotaAvailable (q : QuotaState) (now : Int) : QuotaReport :=
  if 60000 ≤ now - q.lastMinuteTimestamp then
    { isQuotaExceeded := false, quotaData := q, timeToReset := 0 }
  else
    let exceeded := decide (q.requestsThisMinute ≥ q.minuteQuota)
    { isQuotaExceeded := exceeded
      quotaData := q
      timeToReset := if exceeded then max 0 (60000 - (now - q.lastMinuteTimestamp)) else 0 }

/-- Outcome of reading quota.json: missing file, unreadable/unparsable
contents, or a parsed state. -/
inductive LoadResult
  | notFound
  | unreadable
  | ok (data : QuotaState)

/-- The `initialData` defaults of `initQuotaLog` (lines 55-65):
minuteQuota 15, dailyQuota 120, counters zero, window starting now. -/
def initialData (now : Int) (today : Nat) : QuotaState :=
  { requestsToday := 0
    requestsThisMinute := 0
    lastMinuteTimestamp := now
    dailyReset := today
    minuteQuota := 15
    dailyQuota := 120
    quotaExceededCount := 0
    lastUpdate := now
    history := [] }

/-- `initQuotaLog` (lines 48-94): returns the cached in-memory state when
present; otherwise falls back to `initialData` on a missing or unreadable
file, and normalizes a persisted `minuteQuota < 15` up to 15/120. The
second component lists the store writes the call attempts
(`saveQuotaData` on a missing file and on the quota upgrade). -/
def initQuotaLog (mem : Option QuotaState) (load : LoadResult) (now : Int) (today : Nat) :
    QuotaState × List QuotaState :=
  match mem with
  | some q => (q, [])
  | none =>
    match load with
    | .notFound => (initialData now today, [initialData now today])
    | .unreadable => (initialData now today, [])
    | .ok d =>
      if d.minuteQuota < 15 then
        let d2 := { d with minuteQuota := 15, dailyQuota := 120 }
        (d2, [d2])
      else (d, [])

/-- A full `checkQuotaAvailable` call including state loading: the report,
the in-memory cache after the call (`initQuotaLog` always sets it), and
the attempted store writes (none beyond those of `initQuotaLog`). -/
def checkFull (mem : Option QuotaState) (load : LoadResult) (now : Int) (today : Nat) :
    QuotaReport × Option QuotaState × List QuotaState :=
  let p := initQuotaLog mem load now today
  (checkQuotaAvailable p.1 now, some p.1, p.2)

/-- A full `trackApiRequest` call including state loading: the report, the
in-memory cache after the call (line 142 stores the updated state), and
the attempted store writes (those of `initQuotaLog` plus the `saveQuotaData` of
line 141). The source ignores the boolean result of `saveQuotaData`, so the
report and cache do not depend on whether the writes succeed. -/
def trackFull (mem : Option QuotaState) (load : LoadResult) (now : Int) (today : Nat) :
    QuotaReport × Option QuotaState × List QuotaState :=
  let p := initQuotaLog mem load now today
  let r := trackApiRequest p.1 now today
  (r, some r.quotaData, p.2 ++ [r.quotaData])

/-
The Gemini `rateLimiter` of the chat controller: a FIFO queue drained by
`processQueue`, with `minTimeBetweenRequests = 30000`, `maxRetries = 3`.
-/

/-- The `minTimeBetweenRequests` constant of the rateLimiter object. -/
def minTimeBetweenRequests : Int := 30000

/-- The `maxRetries` constant of the rateLimiter object. -/
def maxRetries : Nat := 3

/-- An error thrown by the promise function of a work item. `message` is the
JavaScript error message; `suggestedDelaySec` is the value the source
extracts from the message with the regex on the pattern retryDelay:"Ns"
(present exactly when the message carries such a hint). -/
structure ApiError where
  message : String
  suggestedDelaySec : Option Nat
deriving DecidableEq

/-- Whether `pat` occurs at the head of `s` (character-wise). -/
def listMatchesAt (pat s : List Char) : Bool :=
  match pat, s with
  | [], _ => true
  | _ :: _, [] => false
  | p :: ps, c :: cs => p == c && listMatchesAt ps cs

/-- JavaScript `String.prototype.includes`: `pat` occurs somewhere in `s`. -/
def listContains (pat s : List Char) : Bool :=
  match s with
  | [] => listMatchesAt pat []
  | _ :: cs => listMatchesAt pat s || listContains pat cs

/-- The rate-limit classification of `processQueue` (line 99):
the message includes the text 429 Too Many Requests. -/
def isRateLimitError (e : ApiError) : Bool :=
  listContains "429 Too Many Requests".toList e.message.toList

/-- The base retry delay of `processQueue` (lines 100-106): the suggested
delay from the message converted to milliseconds when present, else the
30000 ms default. -/
def baseRetryDelay (e : ApiError) : Nat :=
  match e.suggestedDelaySec with
  | some s => s * 1000
  | none => 30000

/-- Terminal outcome of a work item. -/
inductive ItemOutcome
  | resolved (v : String)
  | rejectedExhausted
  | rejected (e : ApiError)
deriving DecidableEq

/-- Retry ladder of `processQueue` (lines 91-126) for one work item whose
attempt number `retryCount` determines the outcome of its promise
function (`run`): on success resolve; on a rate-limit error compute
`delay = baseRetryDelay * 2 ^ retryCount` and, while
`retryCount < maxRetries`, re-submit with `retryCount + 1` after that
delay; otherwise reject with the retries-exhausted error; on any other
error reject immediately. Returns the terminal outcome, the list of
scheduled backoff delays, and the number of times `run` was invoked.
`fuel` bounds the recursion; `maxRetries + 1 - retryCount` attempts
always suffice. -/
def processAttempt (run : Nat → Except ApiError String) (retryCount fuel : Nat) :
    ItemOutcome × List Nat × Nat :=
  match fuel with
  | 0 => (ItemOutcome.rejectedExhausted, [], 0)
  | fuel + 1 =>
    match run retryCount with
    | .ok v => (.resolved v, [], 1)
    | .error e =>
      if isRateLimitError e then
        let delay := baseRetryDelay e * 2 ^ retryCount
        if retryCount < maxRetries then
          let r := processAttempt run (retryCount + 1) fuel
          (r.1, delay :: r.2.1, r.2.2 + 1)
        else (.rejectedExhausted, [], 1)
      else (.rejected e, [], 1)

/-- Dispatch pacing of `processQueue` (lines 82-92): for each queue item,
given the instant `r` at which the drain loop reaches it, the item is
dispatched at `r + max 0 (lastRequestTime + minTimeBetweenRequests - r)`,
i.e. at `max r (lastRequestTime + minInterval)`, and `lastRequestTime`
is set to that dispatch instant. Returns the dispatch instants, in
order, for the given reach instants. -/
def dispatchSchedule (minInterval last : Int) : List Int → List Int
  | [] => []
  | r :: rs =>
    let d := max r (last + minInterval)
    d :: dispatchSchedule minInterval d rs

/-
Concrete states used by witnesses and counterexamples.
-/

/-- A state persisted on a previous calendar day (day key 1) with 7
requests recorded and 2 quota exceedances. -/
def staleDayState : QuotaState :=
  { requestsToday := 7
    requestsThisMinute := 0
    lastMinuteTimestamp := 0
    dailyReset := 1
    minuteQuota := 15
    dailyQuota := 120
    quotaExceededCount := 2
    lastUpdate := 0
    history := [] }

/-- A state persisted by an older build with `minuteQuota = 10 < 15`. -/
def legacyState : QuotaState :=
  { requestsToday := 3
    requestsThisMinute := 1
    lastMinuteTimestamp := 0
    dailyReset := 0
    minuteQuota := 10
    dailyQuota := 60
    quotaExceededCount := 0
    lastUpdate := 0
    history := [] }

/-- A fresh state configured with `minuteQuota = 2` for the three-call
scenario. -/
def scenarioState : QuotaState :=
  { initialData 0 0 with minuteQuota := 2 }

/-- A rate-limit error carrying a 5-second suggested delay. -/
def rateLimitErr : ApiError :=
  { message := "429 Too Many Requests retryDelay:\x225s\x22"
    suggestedDelaySec := some 5 }

/-- A non-rate-limit backend error. -/
def authErr : ApiError :=
  { message := "403 Forbidden: API key invalid"
    suggestedDelaySec := none }

/-
Helper lemmas.
-/

/-- The daily rollover leaves the quota ceilings and the minute-window
fields untouched. -/
lemma dailyRollover_fields (q : QuotaState) (today : Nat) :
    (dailyRollover q today).minuteQuota = q.minuteQuota ∧
    (dailyRollover q today).dailyQuota = q.dailyQuota ∧
    (dailyRollover q today).requestsThisMinute = q.requestsThisMinute ∧
    (dailyRollover q today).lastMinuteTimestamp = q.lastMinuteTimestamp := by
  unfold dailyRollover
  split_ifs with h
  · dsimp only
    split_ifs <;> simp
  · simp

/-- The minute rollover leaves the quota ceilings, the daily counter, the
history and the exceed counter untouched. -/
lemma minuteRollover_fields (q : QuotaState) (now : Int) :
    (minuteRollover q now).minuteQuota = q.minuteQuota ∧
    (minuteRollover q now).dailyQuota = q.dailyQuota ∧
    (minuteRollover q now).requestsToday = q.requestsToday ∧
    (minuteRollover q now).history = q.history ∧
    (minuteRollover q now).quotaExceededCount = q.quotaExceededCount := by
  unfold minuteRollover
  split_ifs <;> simp

/-- After the rollovers, a record call increments both counters by one and
its exceed flag is the post-increment test against the unchanged ceilings. -/
lemma trackApiRequest_counts (q0 : QuotaState) (now : Int) (today : Nat) :
    (trackApiRequest q0 now today).quotaData.requestsToday
        = (minuteRollover (dailyRollover q0 today) now).requestsToday + 1 ∧
    (trackApiRequest q0 now today).quotaData.requestsThisMinute
        = (minuteRollover (dailyRollover q0 today) now).requestsThisMinute + 1 ∧
    (trackApiRequest q0 now today).isQuotaExceeded
        = (decide ((minuteRollover (dailyRollover q0 today) now).requestsThisMinute + 1 > q0.minuteQuota)
           || decide ((minuteRollover (dailyRollover q0 today) now).requestsToday + 1 ≥ q0.dailyQuota)) := by
  obtain ⟨hd1, hd2, -, -⟩ := dailyRollover_fields q0 today
  obtain ⟨hm1, hm2, -, -, -⟩ := minuteRollover_fields (dailyRollover q0 today) now
  unfold trackApiRequest
  dsimp only
  rw [hm1, hd1, hm2, hd2]
  split <;> simp

/-- The history after a record call is exactly the history after the daily
rollover: no later step of the call touches it. -/
lemma trackApiRequest_history (q0 : QuotaState) (now : Int) (today : Nat) :
    (trackApiRequest q0 now today).quotaData.history = (dailyRollover q0 today).history := by
  obtain ⟨-, -, -, hmh, -⟩ := minuteRollover_fields (dailyRollover q0 today) now
  unfold trackApiRequest
  dsimp only
  split <;> simp [hmh]

/-- History behaviour of the daily rollover: starting below the 30-entry
bound, the bound is preserved; without a date change the history is
untouched; with a date change the new history is a suffix of the old
history extended by the (zeroed) entry the source pushes. -/
lemma dailyRollover_history_cases (q : QuotaState) (today : Nat) (h : q.history.length ≤ 30) :
    (dailyRollover q today).history.length ≤ 30 ∧
    (q.dailyReset = today → (dailyRollover q today).history = q.history) ∧
    (q.dailyReset ≠ today →
      List.IsSuffix (dailyRollover q today).history
        (q.history ++ [⟨today, 0, q.quotaExceededCount⟩])) := by
  unfold dailyRollover
  by_cases hne : q.dailyReset ≠ today
  · rw [if_pos hne]
    dsimp only
    refine ⟨?_, fun hc => absurd hc hne, fun _ => ?_⟩
    · split
      · simp only [List.length_drop]
        omega
      · next hlen =>
        simp only [List.length_append, List.length_singleton] at hlen ⊢
        omega
    · split
      · exact List.drop_suffix _ _
      · exact List.suffix_refl _
  · rw [if_neg hne]
    push_neg at hne
    exact ⟨h, fun _ => rfl, fun hc => absurd hne hc⟩

/-- A quota-availability check hands back the loaded state unchanged. -/
lemma checkQuotaAvailable_quotaData (q : QuotaState) (now : Int) :
    (checkQuotaAvailable q now).quotaData = q := by
  unfold checkQuotaAvailable
  split <;> rfl

/-- Every dispatch instant produced from pacing baseline `last` lies at
least `minI` after `last`. -/
lemma dispatchSchedule_ge (minI : Int) (h : 0 ≤ minI) :
    ∀ (rs : List Int) (last x : Int), x ∈ dispatchSchedule minI last rs → last + minI ≤ x := by
  intro rs
  induction rs with
  | nil => intro last x hx; simp [dispatchSchedule] at hx
  | cons r rs ih =>
    intro last x hx
    simp only [dispatchSchedule, List.mem_cons] at hx
    rcases hx with hx | hx
    · subst hx; exact le_max_right _ _
    · have h1 := ih (max r (last + minI)) x hx
      have h2 : last + minI ≤ max r (last + minI) := le_max_right _ _
      omega

/-- Single retry step of the queue drain on a rate-limit failure with
retry budget remaining. -/
lemma processAttempt_rateLimited (run : Nat → Except ApiError String) (rc fuel : Nat)
    (e : ApiError) (he : isRateLimitError e = true) (hr : run rc = .error e)
    (hlt : rc < maxRetries) :
    processAttempt run rc (fuel + 1)
      = ((processAttempt run (rc + 1) fuel).1,
         baseRetryDelay e * 2 ^ rc :: (processAttempt run (rc + 1) fuel).2.1,
         (processAttempt run (rc + 1) fuel).2.2 + 1) := by
  simp [processAttempt, hr, he, hlt]

/-- Terminal step of the queue drain on a rate-limit failure with the
retry budget exhausted. -/
lemma processAttempt_exhaustedStep (run : Nat → Except ApiError String) (rc fuel : Nat)
    (e : ApiError) (he : isRateLimitError e = true) (hr : run rc = .error e)
    (hge : ¬ rc < maxRetries) :
    processAttempt run rc (fuel + 1) = (ItemOutcome.rejectedExhausted, [], 1) := by
  simp [processAttempt, hr, he, hge]

/-
Claim theorems.
-/

/-- Claim C1 (code_bug evidence). The claim states that the daily rollover
appends the prior day final request count with the pre-rollover date
before zeroing. The code instead overwrites `dailyReset` and
`requestsToday` first (quotaMonitor.js lines 104-105) and then pushes the
already-overwritten fields (lines 107-111): at a day-1 state with 7
requests and 2 exceedances, a record call on day 2 appends the entry
`{date := 2, requests := 0, quotaExceeds := 2}`, not
`{date := 1, requests := 7, quotaExceeds := 2}`, contradicting the
comment above the push (keep a record of the previous day). -/
theorem c1_daily_rollover_entry_zeroed :
    staleDayState.dailyReset = 1 ∧ staleDayState.requestsToday = 7
    ∧ staleDayState.quotaExceededCount = 2
    ∧ (trackApiRequest staleDayState 0 2).quotaData.history = [⟨2, 0, 2⟩]
    ∧ (trackApiRequest staleDayState 0 2).quotaData.history ≠ [⟨1, 7, 2⟩] := by
  decide

/-- Claim C2. After the daily and minute rollovers, `record()` increments
`requestsToday` and `requestsThisMinute` by exactly one, unconditionally
and before the exceed check, and returns
`isQuotaExceeded = requestsThisMinute > minuteQuota || requestsToday >= dailyQuota`
on the post-increment counts; with `minuteQuota = 2` and the daily count
far below `dailyQuota`, three calls in one minute window return
`false`, `false`, `true`. -/
theorem c2_record_increments_before_check (q0 : QuotaState) (now : Int) (today : Nat) :
    ((trackApiRequest q0 now today).quotaData.requestsToday
        = (minuteRollover (dailyRollover q0 today) now).requestsToday + 1
     ∧ (trackApiRequest q0 now today).quotaData.requestsThisMinute
        = (minuteRollover (dailyRollover q0 today) now).requestsThisMinute + 1
     ∧ (trackApiRequest q0 now today).isQuotaExceeded
        = (decide ((minuteRollover (dailyRollover q0 today) now).requestsThisMinute + 1 > q0.minuteQuota)
           || decide ((minuteRollover (dailyRollover q0 today) now).requestsToday + 1 ≥ q0.dailyQuota)))
    ∧ ((trackApiRequest scenarioState 0 0).isQuotaExceeded = false
       ∧ (trackApiRequest (trackApiRequest scenarioState 0 0).quotaData 0 0).isQuotaExceeded = false
       ∧ (trackApiRequest (trackApiRequest (trackApiRequest scenarioState 0 0).quotaData 0 0).quotaData 0 0).isQuotaExceeded
           = true) := by
  exact ⟨trackApiRequest_counts q0 now today, by decide, by decide, by decide⟩

/-- Claim C3. For any submission pattern, the queue drain never dispatches
two work items closer together than `minInterval`: the dispatch instants
are pairwise separated by at least `minInterval` (any earlier dispatch
plus `minInterval` bounds any later one), and in the two-item burst
scenario with the governor idle, the first item dispatches as soon as the
drain reaches it and the second no earlier than `minInterval` after it. -/
theorem c3_governor_min_spacing :
    (∀ (minI last : Int) (ready : List Int), 0 ≤ minI →
      List.Pairwise (fun a b => a + minI ≤ b) (dispatchSchedule minI last ready)) ∧
    (∀ (t0 r2 last : Int), last + minTimeBetweenRequests ≤ t0 →
      dispatchSchedule minTimeBetweenRequests last [t0, r2]
          = [t0, max r2 (t0 + minTimeBetweenRequests)] ∧
      t0 + minTimeBetweenRequests ≤ max r2 (t0 + minTimeBetweenRequests)) := by
  constructor
  · intro minI last ready h
    induction ready generalizing last with
    | nil => simp [dispatchSchedule]
    | cons r rs ih =>
      simp only [dispatchSchedule]
      exact List.Pairwise.cons (fun b hb => dispatchSchedule_ge minI h rs _ b hb) (ih _)
  · intro t0 r2 last h
    constructor
    · simp only [dispatchSchedule]
      rw [max_eq_left h]
    · exact le_max_right _ _

/-- Witness for C3: with `minInterval = 30000` and baseline 0, items
reached at 100000 and 100100 dispatch at 100000 and 130000, pairwise
spaced by at least 30000. -/
theorem c3_governor_min_spacing_witness :
    List.Pairwise (fun a b => a + minTimeBetweenRequests ≤ b)
      (dispatchSchedule minTimeBetweenRequests 0 [100000, 100100]) ∧
    dispatchSchedule minTimeBetweenRequests 0 [100000, 100100] = [100000, 130000] := by
  constructor
  · exact c3_governor_min_spacing.1 minTimeBetweenRequests 0 [100000, 100100] (by decide)
  · have h2 := (c3_governor_min_spacing.2 100000 100100 0 (by decide)).1
    rw [h2]
    decide

/-- Claim C4. A work item whose run always fails with a rate-limit error
is retried exactly `maxRetries` = 3 times (the run is invoked
`maxRetries + 1` times in all), the k-th retry is scheduled after
`baseRetryDelay * 2 ^ k` so consecutive delays double, and the item then
rejects with the retries-exhausted error. -/
theorem c4_rate_limit_retry_ladder (e : ApiError) (run : Nat → Except ApiError String)
    (he : isRateLimitError e = true) (hrun : ∀ k, run k = .error e) :
    processAttempt run 0 (maxRetries + 1)
        = (ItemOutcome.rejectedExhausted,
           [baseRetryDelay e * 2 ^ 0, baseRetryDelay e * 2 ^ 1, baseRetryDelay e * 2 ^ 2],
           maxRetries + 1)
    ∧ (∀ d : Nat, d * 2 ^ 1 = 2 * (d * 2 ^ 0) ∧ d * 2 ^ 2 = 2 * (d * 2 ^ 1)) := by
  constructor
  · have s0 : processAttempt run 0 4
        = ((processAttempt run 1 3).1,
           baseRetryDelay e * 2 ^ 0 :: (processAttempt run 1 3).2.1,
           (processAttempt run 1 3).2.2 + 1) :=
      processAttempt_rateLimited run 0 3 e he (hrun 0) (by decide)
    have s1 : processAttempt run 1 3
        = ((processAttempt run 2 2).1,
           baseRetryDelay e * 2 ^ 1 :: (processAttempt run 2 2).2.1,
           (processAttempt run 2 2).2.2 + 1) :=
      processAttempt_rateLimited run 1 2 e he (hrun 1) (by decide)
    have s2 : processAttempt run 2 2
        = ((processAttempt run 3 1).1,
           baseRetryDelay e * 2 ^ 2 :: (processAttempt run 3 1).2.1,
           (processAttempt run 3 1).2.2 + 1) :=
      processAttempt_rateLimited run 2 1 e he (hrun 2) (by decide)
    have s3 : processAttempt run 3 1 = (ItemOutcome.rejectedExhausted, [], 1) :=
      processAttempt_exhaustedStep run 3 0 e he (hrun 3) (by decide)
    show processAttempt run 0 4 = _
    rw [s0, s1, s2, s3]
    rfl
  · intro d
    constructor <;> ring

/-- Witness for C4: a 429 error suggesting a 5-second delay yields the
doubling delays 5000, 10000, 20000 ms and a terminal exhausted rejection
after four run invocations. -/
theorem c4_rate_limit_retry_ladder_witness :
    isRateLimitError rateLimitErr = true ∧
    processAttempt (fun _ => Except.error rateLimitErr) 0 (maxRetries + 1)
      = (ItemOutcome.rejectedExhausted, [5000, 10000, 20000], maxRetries + 1) := by
  refine ⟨by decide, ?_⟩
  have h := (c4_rate_limit_retry_ladder rateLimitErr (fun _ => Except.error rateLimitErr)
      (by decide) (fun k => rfl)).1
  rw [h]
  decide

/-- Claim C5. A work item whose run fails with an error not carrying the
rate-limit marker rejects immediately with that error after a single run
invocation: zero retries and no scheduled backoff delay. -/
theorem c5_non_rate_limit_rejects (e : ApiError) (run : Nat → Except ApiError String)
    (he : isRateLimitError e = false) (h0 : run 0 = .error e) (fuel : Nat) :
    processAttempt run 0 (fuel + 1) = (ItemOutcome.rejected e, [], 1) := by
  simp [processAttempt, h0, he]

/-- Witness for C5: a 403 error rejects at once with no retries. -/
theorem c5_non_rate_limit_rejects_witness :
    processAttempt (fun _ => Except.error authErr) 0 4 = (ItemOutcome.rejected authErr, [], 1) :=
  c5_non_rate_limit_rejects authErr (fun _ => Except.error authErr) (by decide) rfl 3

/-- Claim C6, counterexample. The claim says no `check()` call changes the
persisted store, but a `check()` whose state loading finds a persisted
state with `minuteQuota < 15` (here 10) writes the normalized 15/120
state back to the store (quotaMonitor.js lines 80-84 inside
`initQuotaLog`, reached from `checkQuotaAvailable` line 154). -/
theorem c6_check_writes_on_load_counterexample :
    (checkFull none (LoadResult.ok legacyState) 0 0).2.2
        = [{ legacyState with minuteQuota := 15, dailyQuota := 120 }]
    ∧ (checkFull none (LoadResult.ok legacyState) 0 0).2.2 ≠ [] := by
  decide

/-- Claim C6, amended. `check()` never mutates the quota counters: two
consecutive `check()` calls with no intervening `record()` return
identical `requestsThisMinute` and `requestsToday`; `checkQuotaAvailable`
itself hands the loaded state back unchanged; and the only store writes a
`check()` call can trigger happen in first-time state loading (creating a
missing file, or normalizing a persisted `minuteQuota < 15` up to
15/120) — a call that finds the state already cached in memory, such as
the second of two consecutive calls, writes nothing. -/
theorem c6_check_read_only_amended (mem : Option QuotaState) (load : LoadResult)
    (now now2 : Int) (today today2 : Nat) :
    ((checkFull (checkFull mem load now today).2.1 load now2 today2).1.quotaData.requestsThisMinute
        = (checkFull mem load now today).1.quotaData.requestsThisMinute)
    ∧ ((checkFull (checkFull mem load now today).2.1 load now2 today2).1.quotaData.requestsToday
        = (checkFull mem load now today).1.quotaData.requestsToday)
    ∧ ((checkFull (checkFull mem load now today).2.1 load now2 today2).2.2 = [])
    ∧ (∀ q : QuotaState, (checkQuotaAvailable q now).quotaData = q)
    ∧ (∀ q : QuotaState, (checkFull (some q) load now today).2.2 = []) := by
  refine ⟨?_, ?_, rfl, fun q => checkQuotaAvailable_quotaData q now, fun q => rfl⟩
  · show (checkQuotaAvailable (initQuotaLog mem load now today).1 now2).quotaData.requestsThisMinute
        = (checkQuotaAvailable (initQuotaLog mem load now today).1 now).quotaData.requestsThisMinute
    rw [checkQuotaAvailable_quotaData, checkQuotaAvailable_quotaData]
  · show (checkQuotaAvailable (initQuotaLog mem load now today).1 now2).quotaData.requestsToday
        = (checkQuotaAvailable (initQuotaLog mem load now today).1 now).quotaData.requestsToday
    rw [checkQuotaAvailable_quotaData, checkQuotaAvailable_quotaData]

/-- Claim C7. When the minute window has elapsed, `check()` reports
not-exceeded with `timeToReset = 0` and the state unchanged; otherwise it
reports `isQuotaExceeded = requestsThisMinute >= minuteQuota` (the
pre-flight bound, a non-strict comparison where `record()` uses a strict
one) with the state unchanged and `timeToReset` equal to the remaining
milliseconds of the window when exceeded and 0 otherwise. -/
theorem c7_check_semantics (q : QuotaState) (now : Int) :
    ((60000 ≤ now - q.lastMinuteTimestamp) →
      checkQuotaAvailable q now = ⟨false, q, 0⟩) ∧
    (now - q.lastMinuteTimestamp < 60000 →
      (checkQuotaAvailable q now).isQuotaExceeded = decide (q.requestsThisMinute ≥ q.minuteQuota) ∧
      (checkQuotaAvailable q now).quotaData = q ∧
      (checkQuotaAvailable q now).timeToReset =
        (if q.requestsThisMinute ≥ q.minuteQuota then 60000 - (now - q.lastMinuteTimestamp) else 0)) := by
  constructor
  · intro h
    unfold checkQuotaAvailable
    rw [if_pos h]
  · intro h
    unfold checkQuotaAvailable
    rw [if_neg (by omega)]
    dsimp only
    refine ⟨rfl, rfl, ?_⟩
    split
    · next hx =>
      rw [if_pos (of_decide_eq_true hx)]
      omega
    · next hx =>
      rw [if_neg (fun hc => hx (decide_eq_true hc))]

/-- Witness for C7: the elapsed-window branch at instant 70000 on the
legacy state, and the in-window branch at instant 100 (1 request against
a quota of 10: not exceeded, `timeToReset = 0`). -/
theorem c7_check_semantics_witness :
    checkQuotaAvailable legacyState 70000 = ⟨false, legacyState, 0⟩
    ∧ (checkQuotaAvailable legacyState 100).isQuotaExceeded = false
    ∧ (checkQuotaAvailable legacyState 100).timeToReset = 0 := by
  refine ⟨(c7_check_semantics legacyState 70000).1 (by decide), ?_, ?_⟩
  · rw [((c7_check_semantics legacyState 100).2 (by decide)).1]
    decide
  · rw [((c7_check_semantics legacyState 100).2 (by decide)).2.2]
    decide

/-- Claim C8. The history never exceeds 30 entries: from any state with at
most 30 entries, a `record()` call leaves at most 30; without a date
change the history is untouched, and on a rollover the new history is a
suffix of the old history extended by the pushed entry, so only the
oldest entries are evicted. -/
theorem c8_history_bounded (q : QuotaState) (now : Int) (today : Nat)
    (h : q.history.length ≤ 30) :
    (trackApiRequest q now today).quotaData.history.length ≤ 30
    ∧ (q.dailyReset = today → (trackApiRequest q now today).quotaData.history = q.history)
    ∧ (q.dailyReset ≠ today →
        List.IsSuffix (trackApiRequest q now today).quotaData.history
          (q.history ++ [⟨today, 0, q.quotaExceededCount⟩])) := by
  rw [trackApiRequest_history]
  exact dailyRollover_history_cases q today h

/-- Witness for C8: a rollover from the day-1 state keeps the bound and
yields a suffix of the extended history. -/
theorem c8_history_bounded_witness :
    (trackApiRequest staleDayState 0 2).quotaData.history.length ≤ 30
    ∧ List.IsSuffix (trackApiRequest staleDayState 0 2).quotaData.history
        (staleDayState.history ++ [⟨2, 0, staleDayState.quotaExceededCount⟩]) := by
  have h := c8_history_bounded staleDayState 0 2 (by decide)
  exact ⟨h.1, h.2.2 (by decide)⟩

/-- Claim C9. Persistence failures never fail the caller: with an
unreadable or unparsable store and no cached state, `check()` and
`record()` run on the `initialData` defaults (minuteQuota 15,
dailyQuota 120, counters zero, window starting now) and return the
result computed from them, caching it in memory; and once a state is
cached, both the report and the new cache of a `record()` call are
computed from the cached value alone — the store contents, and hence
the success or failure of any earlier write, cannot change them. -/
theorem c9_persistence_fallback (now now2 : Int) (today : Nat) :
    ((checkFull none LoadResult.unreadable now today).1
        = checkQuotaAvailable (initialData now today) now)
    ∧ ((trackFull none LoadResult.unreadable now today).1
        = trackApiRequest (initialData now today) now today)
    ∧ ((checkFull none LoadResult.unreadable now today).2.1 = some (initialData now today))
    ∧ ((initialData now today).minuteQuota = 15 ∧ (initialData now today).dailyQuota = 120
       ∧ (initialData now today).requestsToday = 0 ∧ (initialData now today).requestsThisMinute = 0
       ∧ (initialData now today).lastMinuteTimestamp = now)
    ∧ (∀ (q : QuotaState) (load load2 : LoadResult),
        (trackFull (some q) load now2 today).1 = (trackFull (some q) load2 now2 today).1
        ∧ (trackFull (some q) load now2 today).2.1 = some (trackApiRequest q now2 today).quotaData
        ∧ (trackFull (some q) load now2 today).1 = trackApiRequest q now2 today) := by
  exact ⟨rfl, rfl, rfl, ⟨rfl, rfl, rfl, rfl, rfl⟩, fun q l l2 => ⟨rfl, rfl, rfl⟩⟩

/-- Claim C10. `check()` never consults the daily counter: its exceed flag
is unchanged under any replacement of `requestsToday` and `dailyQuota`,
and within the minute window with `requestsThisMinute < minuteQuota` it
reports not-exceeded no matter how exhausted the daily quota is. -/
theorem c10_check_ignores_daily_quota (q : QuotaState) (now : Int) (t d : Nat) :
    ((checkQuotaAvailable { q with requestsToday := t, dailyQuota := d } now).isQuotaExceeded
        = (checkQuotaAvailable q now).isQuotaExceeded)
    ∧ (now - q.lastMinuteTimestamp < 60000 → q.requestsThisMinute < q.minuteQuota →
      (checkQuotaAvailable q now).isQuotaExceeded = false) := by
  constructor
  · unfold checkQuotaAvailable
    dsimp only
    split <;> rfl
  · intro h1 h2
    unfold checkQuotaAvailable
    rw [if_neg (by omega)]
    simpa using by omega

/-- Witness for C10: in-window, below the minute quota but with the daily
quota exhausted (requestsToday 200 against dailyQuota 60), `check()`
still admits. -/
theorem c10_check_ignores_daily_quota_witness :
    (checkQuotaAvailable { legacyState with requestsToday := 200 } 50).isQuotaExceeded = false :=
  (c10_check_ignores_daily_quota { legacyState with requestsToday := 200 } 50 200 60).2
    (by decide) (by decide)
